import Mathlib

/-!
Shallow embedding of the spatial-eeg core pipeline:
center-of-pressure and load engine (src/pt_analytics/features/load.py),
frame parser (src/pt_analytics/parsers/frame_parser.py),
sit-to-stand detector (src/pt_analytics/features/sts.py),
gait event detector (src/pt_analytics/features/gait.py),
fall-alert state machine and basestation fusion (web_working/server.py),
and the soft-bio gait tracker (web_working/softbio/feature_extractor.py).

Machine floats are modelled as exact rationals; numpy boolean grids as
lists of lists of booleans.
-/

namespace SpatialEEG

/-- A binary sensor frame: a grid of boolean cell values, row major,
as produced by numpy boolean arrays in the source. -/
abbrev Frame := List (List Bool)

/-- np.sum over a boolean frame: the number of active cells. -/
def countActive (f : Frame) : ℕ :=
  (f.map (fun row => row.countP id)).sum

/-- Coordinates (rowIndex, colIndex) of the active cells, row major:
the order np.where enumerates them. -/
def activeCoords (f : Frame) : List (ℕ × ℕ) :=
  f.enum.flatMap (fun ir =>
    ir.2.enum.filterMap (fun jb => if jb.2 then some (ir.1, jb.1) else none))

/-- Number of active cells whose column index satisfies p:
models np.sum over a column slice of the frame. -/
def countActiveCols (p : ℕ → Bool) (f : Frame) : ℕ :=
  (activeCoords f).countP (fun c => p c.2)

/-- Number of active cells whose row index satisfies p:
models np.sum over a row slice of the frame. -/
def countActiveRows (p : ℕ → Bool) (f : Frame) : ℕ :=
  (activeCoords f).countP (fun c => p c.1)

/-- calc_cop (load.py): mean (x, y) of active cell coordinates;
returns the grid-center sentinel (C/2, R/2) when no cell is active.
R and C are the configured SENSOR_ROWS / SENSOR_COLS. -/
def calc_cop (R C : ℕ) (f : Frame) : ℚ × ℚ :=
  if countActive f = 0 then ((C : ℚ) / 2, (R : ℚ) / 2)
  else
    (((activeCoords f).map (fun c => (c.2 : ℚ))).sum / (countActive f : ℚ),
     ((activeCoords f).map (fun c => (c.1 : ℚ))).sum / (countActive f : ℚ))

/-- Result of split_load (load.py). -/
structure LoadSplit where
  left_pct : ℚ
  right_pct : ℚ
  ant_pct : ℚ
  post_pct : ℚ
  deriving DecidableEq

/-- split_load (load.py): load distribution across the four half-grids,
halving columns at C//2 and rows at R//2; 0.5 everywhere when no cell
is active. -/
def split_load (R C : ℕ) (f : Frame) : LoadSplit :=
  if countActive f = 0 then ⟨1/2, 1/2, 1/2, 1/2⟩
  else
    ⟨(countActiveCols (fun j => decide (j < C / 2)) f : ℚ) / (countActive f : ℚ),
     (countActiveCols (fun j => decide (C / 2 ≤ j)) f : ℚ) / (countActive f : ℚ),
     (countActiveRows (fun i => decide (i < R / 2)) f : ℚ) / (countActive f : ℚ),
     (countActiveRows (fun i => decide (R / 2 ≤ i)) f : ℚ) / (countActive f : ℚ)⟩

/-! ## Frame parser (src/pt_analytics/parsers/frame_parser.py)

parse_frame decodes the (already decompressed) byte payload with
np.frombuffer(...).reshape(R, C) > 0 and applies a 3x3 median filter
(scipy.ndimage.median_filter, size=3, reflect boundary).  numpy's
reshape raises when the byte count differs from R*C; that single
failure path is the error the spec names MalformedFrame.  No other
failure path (in particular no transpose attempt) exists in the
source function. -/

/-- The error kinds named by the spec for per-frame parsing failures. -/
inductive FrameError where
  | MalformedFrame
  | DimensionMismatch
  deriving DecidableEq

/-- np.frombuffer(data, dtype=np.uint8).reshape(R, C) > 0 : the decoded
byte list chunked into R rows of C cells, a cell active iff its byte is
nonzero.  Only used when bytes.length = R * C. -/
def toGrid (R C : ℕ) (bytes : List ℕ) : Frame :=
  (List.range R).map (fun i => ((bytes.drop (i * C)).take C).map (fun b => decide (0 < b)))

/-- Grid cell lookup with a default of false. -/
def cellB (f : Frame) (i j : ℕ) : Bool := (f.getD i []).getD j false

/-- Index clamping implementing scipy's reflect boundary mode for a
3x3 window (for a one-cell overhang, reflect coincides with clamping). -/
def clampIdx (n : ℕ) (k : ℤ) : ℕ :=
  if k < 0 then 0 else if (n : ℤ) ≤ k then n - 1 else k.toNat

/-- scipy.ndimage.median_filter(frame, size=3) on a boolean R x C grid:
each output cell is the median (i.e. the majority, at least 5 of 9) of
its 3x3 neighborhood, borders handled by reflection. -/
def medianFilter3 (R C : ℕ) (f : Frame) : Frame :=
  (List.range R).map (fun i =>
    (List.range C).map (fun j =>
      let neigh := (List.range 3).flatMap (fun a =>
        (List.range 3).map (fun b =>
          cellB f (clampIdx R (Int.ofNat i + Int.ofNat a - 1))
            (clampIdx C (Int.ofNat j + Int.ofNat b - 1))))
      decide (5 ≤ neigh.countP id)))

/-- parse_frame (frame_parser.py) on decompressed bytes: reshape to
(R, C) — failing (numpy ValueError, the spec's MalformedFrame) when the
byte count is not R*C — then binarize and median-filter. -/
def parse_frame (R C : ℕ) (bytes : List ℕ) : Except FrameError Frame :=
  if bytes.length = R * C then Except.ok (medianFilter3 R C (toGrid R C bytes))
  else Except.error FrameError.MalformedFrame

/-! ## Fall-alert state machine (web_working/server.py, process_frame)

The classifier (detector.model.predict) is an injected opaque scoring
function over the frame window; the branch where no detector is loaded
is not modelled.  current_time is the time.time() value read at the top
of process_frame — an input of the model, since it is wall clock, not a
frame timestamp. -/

/-- Fall-detection thresholds (server.py, loaded from config/env). -/
structure FallParams where
  sequence_length : ℕ
  consecutive_frames : ℕ
  fall_threshold : ℚ
  cooldown_period : ℚ
  deriving DecidableEq

/-- Spec defaults: N=10 frame window, K=3 consecutive flags,
threshold 0.8, cooldown 10 s. -/
def defaultFallParams : FallParams := ⟨10, 3, 4/5, 10⟩

/-- The process-wide mutable fall state of server.py
(frame_buffer, high_prob_frames, last_fall_time, fall_probability,
fall_in_progress). -/
structure FallState where
  frame_buffer : List Frame
  high_prob_frames : List Bool
  last_fall_time : ℚ
  fall_probability : ℚ
  fall_in_progress : Bool
  deriving DecidableEq

/-- The module-level initial values of server.py. -/
def coldFallState : FallState := ⟨[], [], 0, 0, false⟩

/-- Observable per-frame outcome of process_frame: the returned
fall_detected boolean and the number of send_mobile_text_alert
side effects performed during the call. -/
structure FallOutput where
  fall_detected : Bool
  sms_alerts : ℕ
  deriving DecidableEq

/-- deque(maxlen=n).append(x): push right, dropping from the left when
the buffer exceeds n. -/
def pushBounded {α : Type} (n : ℕ) (l : List α) (x : α) : List α :=
  if n < (l ++ [x]).length then (l ++ [x]).drop ((l ++ [x]).length - n) else l ++ [x]

/-- process_frame (server.py): zero-activity reset, manual force path,
cooldown hold, frame buffering, classifier thresholding into the
consecutive-flag buffer, and the alert transition. -/
def processFrame (P : FallParams) (predict : List Frame → ℚ) (s : FallState)
    (frame : Frame) (current_time : ℚ) (force_fall : Bool) : FallState × FallOutput :=
  if countActive frame = 0 ∧ force_fall = false then
    (⟨[], [], s.last_fall_time, 0, false⟩, ⟨false, 0⟩)
  else if force_fall then
    (⟨s.frame_buffer, s.high_prob_frames, current_time, 95/100, true⟩, ⟨true, 0⟩)
  else if s.fall_in_progress ∧ current_time - s.last_fall_time < P.cooldown_period then
    (s, ⟨true, 0⟩)
  else
    let fb := pushBounded P.sequence_length s.frame_buffer frame
    if fb.length < P.sequence_length then
      ({ s with frame_buffer := fb }, ⟨false, 0⟩)
    else
      let p := predict fb
      let hp := pushBounded P.consecutive_frames s.high_prob_frames
        (decide (P.fall_threshold ≤ p))
      if hp.length = P.consecutive_frames ∧ hp.all id ∧
          P.cooldown_period ≤ current_time - s.last_fall_time then
        (⟨fb, hp, current_time, p, true⟩, ⟨true, 1⟩)
      else
        (⟨fb, hp, s.last_fall_time, p,
          if P.cooldown_period ≤ current_time - s.last_fall_time then false
          else s.fall_in_progress⟩, ⟨false, 0⟩)

/-- The alert-transition condition of process_frame for a non-forced,
nonzero frame: the consecutive-flag buffer (after this frame's push) is
full and all true, the frame buffer is full, the cooldown has elapsed
(non-strictly: the source compares with >=), and the machine is not
holding a previous alert inside its cooldown window. -/
def alertCond (P : FallParams) (predict : List Frame → ℚ) (s : FallState)
    (frame : Frame) (current_time : ℚ) : Prop :=
  countActive frame ≠ 0 ∧
  ¬(s.fall_in_progress ∧ current_time - s.last_fall_time < P.cooldown_period) ∧
  (pushBounded P.sequence_length s.frame_buffer frame).length = P.sequence_length ∧
  (pushBounded P.consecutive_frames s.high_prob_frames
      (decide (P.fall_threshold ≤ predict (pushBounded P.sequence_length s.frame_buffer frame)))).length
    = P.consecutive_frames ∧
  (pushBounded P.consecutive_frames s.high_prob_frames
      (decide (P.fall_threshold ≤ predict (pushBounded P.sequence_length s.frame_buffer frame)))).all id ∧
  P.cooldown_period ≤ current_time - s.last_fall_time

instance (P : FallParams) (predict : List Frame → ℚ) (s : FallState)
    (frame : Frame) (current_time : ℚ) :
    Decidable (alertCond P predict s frame current_time) := by
  unfold alertCond
  infer_instance

/-! ## Multi-sensor fusion (web_working/server.py, fuse_basestation_frames) -/

/-- A configured basestation: placement rectangle plus the most recent
frame (None when no frame has been delivered). -/
structure BSConfig where
  width : ℕ
  height : ℕ
  offsetX : ℕ
  offsetY : ℕ
  frame : Option (List (List ℚ))
  deriving DecidableEq

/-- np.zeros((H, W)). -/
def zeroGrid (H W : ℕ) : List (List ℚ) := List.replicate H (List.replicate W 0)

/-- frame.shape == (height, width) for a list-of-rows grid. -/
def shapeOk (f : List (List ℚ)) (h w : ℕ) : Bool :=
  f.length = h && f.all (fun row => row.length = w)

/-- Grid cell lookup with a default of 0. -/
def cellQ (f : List (List ℚ)) (i j : ℕ) : ℚ := (f.getD i []).getD j 0

/-- One loop iteration of fuse_basestation_frames: skip devices with no
frame, warn-and-skip on shape mismatch, bounds-check the placement
rectangle and, only when it fits, copy the frame into the unified grid
(log-and-skip otherwise — the error path is a log line, not an
exception). -/
def blit (H W : ℕ) (grid : List (List ℚ)) (bs : BSConfig) : List (List ℚ) :=
  match bs.frame with
  | none => grid
  | some f =>
    if shapeOk f bs.height bs.width then
      if bs.offsetY + bs.height ≤ H ∧ bs.offsetX + bs.width ≤ W then
        grid.enum.map (fun yr =>
          if bs.offsetY ≤ yr.1 ∧ yr.1 < bs.offsetY + bs.height then
            yr.2.enum.map (fun xv =>
              if bs.offsetX ≤ xv.1 ∧ xv.1 < bs.offsetX + bs.width then
                cellQ f (yr.1 - bs.offsetY) (xv.1 - bs.offsetX)
              else xv.2)
          else yr.2)
      else grid
    else grid

/-- fuse_basestation_frames (server.py): fold all configured devices
into a zeroed H x W unified grid. -/
def fuse_basestation_frames (H W : ℕ) (bss : List BSConfig) : List (List ℚ) :=
  bss.foldl (blit H W) (zeroGrid H W)

/-! ## Sit-to-stand detector (src/pt_analytics/features/sts.py)

np.sqrt is abstracted as an injected function sq : ℚ → ℚ applied to the
squared CoP displacement (the detector only stores the resulting
velocity in its accumulators; no guard reads it).  The rolling frame
history deque — consumed only by get_metrics, which is outside the
claims — is not carried in the state. -/

/-- STSState (sts.py). -/
inductive STSState where
  | SITTING
  | LIFTING
  | STANDING
  | RETURNING
  | UNKNOWN
  deriving DecidableEq

/-- The two STSEvent kinds. -/
inductive STSEventType where
  | sit_to_stand
  | stand_to_sit
  deriving DecidableEq

/-- STSEvent (sts.py). -/
structure STSEvent where
  timestamp : ℚ
  event_type : STSEventType
  duration : ℚ
  max_pressure : ℚ
  peak_velocity : ℚ
  frame : Frame
  deriving DecidableEq

/-- The mutable fields of STSDetector (sts.py). -/
structure STSDetector where
  state : STSState
  state_start_time : ℚ
  max_pressure : ℚ
  peak_velocity : ℚ
  prev_cop : Option (ℚ × ℚ)
  prev_time : Option ℚ
  events : List STSEvent
  deriving DecidableEq

/-- Initial STSDetector state (sts.py constructor). -/
def initSTS : STSDetector := ⟨STSState.UNKNOWN, 0, 0, 0, none, none, []⟩

/-- np.sum(frame_bool[chair_zone]) for the chair-zone rectangle given
as half-open row/column ranges (the default zone is rows 8..12,
columns 5..10). -/
def zoneActivity (rlo rhi clo chi : ℕ) (f : Frame) : ℕ :=
  (activeCoords f).countP (fun c =>
    decide (rlo ≤ c.1) && decide (c.1 < rhi) && decide (clo ≤ c.2) && decide (c.2 < chi))

/-- STSDetector.update (sts.py) with the default chair zone: CoP
velocity and accumulator maintenance followed by the five-state
transition dispatch; returns the updated detector and the emitted
event, if any. -/
def stsUpdate (sq : ℚ → ℚ) (d : STSDetector) (f : Frame) (timestamp : ℚ) :
    STSDetector × Option STSEvent :=
  let zone : ℚ := (zoneActivity 8 12 5 10 f : ℚ)
  let total : ℚ := (countActive f : ℚ)
  let cop := calc_cop 12 15 f
  let cop_velocity : ℚ :=
    match d.prev_cop, d.prev_time with
    | some pc, some pt =>
      if 0 < timestamp - pt then
        sq ((cop.1 - pc.1) ^ 2 + (cop.2 - pc.2) ^ 2) / (timestamp - pt)
      else 0
    | _, _ => 0
  let peak1 : ℚ := if d.peak_velocity < cop_velocity then cop_velocity else d.peak_velocity
  let max1 : ℚ := if d.max_pressure < total then total else d.max_pressure
  let base : STSDetector :=
    { d with prev_cop := some cop, prev_time := some timestamp,
             max_pressure := max1, peak_velocity := peak1 }
  match d.state with
  | STSState.UNKNOWN =>
    ({ base with
        state := if total * (7/10) < zone then STSState.SITTING
                 else if 0 < total then STSState.STANDING
                 else STSState.UNKNOWN,
        state_start_time := timestamp,
        max_pressure := total, peak_velocity := cop_velocity }, none)
  | STSState.SITTING =>
    if zone < total * (1/2) ∧ 0 < total then
      ({ base with
          state := STSState.LIFTING, state_start_time := timestamp,
          max_pressure := total, peak_velocity := cop_velocity }, none)
    else (base, none)
  | STSState.LIFTING =>
    if zone < total * (1/10) ∧ 0 < total then
      let ev : STSEvent := ⟨timestamp, STSEventType.sit_to_stand,
        timestamp - d.state_start_time, max1, peak1, f⟩
      ({ base with
          state := STSState.STANDING, state_start_time := timestamp,
          max_pressure := total, peak_velocity := cop_velocity,
          events := base.events ++ [ev] }, some ev)
    else (base, none)
  | STSState.STANDING =>
    if total * (3/10) < zone ∧ 0 < total then
      ({ base with
          state := STSState.RETURNING, state_start_time := timestamp,
          max_pressure := total, peak_velocity := cop_velocity }, none)
    else (base, none)
  | STSState.RETURNING =>
    if total * (7/10) < zone ∧ 0 < total then
      let ev : STSEvent := ⟨timestamp, STSEventType.stand_to_sit,
        timestamp - d.state_start_time, max1, peak1, f⟩
      ({ base with
          state := STSState.SITTING, state_start_time := timestamp,
          max_pressure := total, peak_velocity := cop_velocity,
          events := base.events ++ [ev] }, some ev)
    else (base, none)

/-! ## Gait event detector (src/pt_analytics/features/gait.py)

The derived metrics of _latest_metrics (cadence, stride statistics,
symmetry, turning) involve np.std and are consumed downstream; the
claims concern _detect_steps, so the model carries the detector state
and the emitted events. -/

/-- Heel-strike / toe-off classification. -/
inductive GaitEventType where
  | heel
  | toe
  deriving DecidableEq

/-- Foot side. -/
inductive Side where
  | left
  | right
  deriving DecidableEq

/-- GaitEvent (gait.py). -/
structure GaitEvent where
  ts : ℚ
  type : GaitEventType
  side : Side
  cop_x : ℚ
  cop_y : ℚ
  dx : ℚ
  frame : Frame
  deriving DecidableEq

/-- The mutable fields of GaitDetector (gait.py); history holds
(ts, cop_x, cop_y, frame) samples, newest last, bounded by fps*3. -/
structure GaitDetector where
  stride_px_thresh : ℚ
  maxHistory : ℕ
  history : List (ℚ × ℚ × ℚ × Frame)
  events : List GaitEvent
  last_heel_strike : Option GaitEvent
  last_toe_off : Option GaitEvent
  deriving DecidableEq

/-- GaitDetector(fps=30, stride_px_thresh=3) initial state. -/
def initGait : GaitDetector := ⟨3, 90, [], [], none, none⟩

/-- Stride length lookup for a new heel strike: distance in x to the
most recent heel strike of the same side, 0 when none exists. -/
def strideFromPrev (events : List GaitEvent) (side : Side) (cur_x : ℚ) : ℚ :=
  match events.reverse.find? (fun e =>
      decide (e.type = GaitEventType.heel) && decide (e.side = side)) with
  | some e => |cur_x - e.cop_x|
  | none => 0

/-- GaitDetector._detect_steps (gait.py): compare the newest two CoP
samples; a heel strike on dx >= threshold with activation rising above
1.2x the previous frame, a toe-off on the mirrored falling condition;
returns the updated detector and the emitted event, if any.
SENSOR_COLS = 15 fixes the grid midline at 7.5. -/
def detectSteps (g : GaitDetector) : GaitDetector × Option GaitEvent :=
  if g.history.length < 3 then (g, none)
  else
    match g.history.reverse with
    | (cur_ts, cur_x, cur_y, cur_f) :: (_, prev_x, _, prev_f) :: _ =>
      let dx := cur_x - prev_x
      if g.stride_px_thresh ≤ dx ∧
          (countActive prev_f : ℚ) * (12/10) < (countActive cur_f : ℚ) then
        let side := if cur_x < 15/2 then Side.left else Side.right
        let ev : GaitEvent := ⟨cur_ts, GaitEventType.heel, side, cur_x, cur_y,
          strideFromPrev g.events side cur_x, cur_f⟩
        ({ g with events := g.events ++ [ev], last_heel_strike := some ev }, some ev)
      else if dx ≤ -g.stride_px_thresh ∧
          (countActive cur_f : ℚ) < (countActive prev_f : ℚ) * (8/10) then
        let side := match g.last_heel_strike with
          | some e => if e.side = Side.left then Side.right else Side.left
          | none => Side.left
        let ev : GaitEvent := ⟨cur_ts, GaitEventType.toe, side, cur_x, cur_y, 0, cur_f⟩
        ({ g with events := g.events ++ [ev], last_toe_off := some ev }, some ev)
      else (g, none)
    | _ => (g, none)

/-- GaitDetector.update (gait.py): compute the CoP, append the sample
to the bounded history, then run step detection. -/
def gaitUpdate (g : GaitDetector) (f : Frame) (ts : ℚ) : GaitDetector × Option GaitEvent :=
  let cop := calc_cop 12 15 f
  detectSteps { g with history := pushBounded g.maxHistory g.history (ts, cop.1, cop.2, f) }

/-! ## Multi-target gait tracker (web_working/softbio/feature_extractor.py)

math.hypot is abstracted as an injected sq : ℚ → ℚ applied to the
squared distance.  Track ids (the source's strings a1, a2, ...) are
kept as the numeric counter. -/

/-- StepFeature (softbio/types.py) as built by _update_foot. -/
structure StepFeature where
  t_start : ℚ
  t_end : ℚ
  step_time_s : ℚ
  stance_time_s : ℚ
  swing_time_s : ℚ
  step_len_m : ℚ
  stride_len_m : ℚ
  step_width_m : ℚ
  ds_pct : ℚ
  deriving DecidableEq

/-- _TrackState (feature_extractor.py). -/
structure TrackState where
  track_id : ℕ
  last_update_t : ℚ
  start_time : ℚ
  centroids : List (ℚ × ℚ)
  centroid_times : List ℚ
  left_contact : Option (ℤ × ℤ)
  right_contact : Option (ℤ × ℤ)
  left_stance_frames : ℕ
  right_stance_frames : ℕ
  steps : List StepFeature
  step_times : List ℚ
  step_lens_m : List ℚ
  deriving DecidableEq

/-- The tracker configuration consumed by GaitFeatureExtractor.
max_assign_dist_cells is the configured gating distance
(cfg.tracking.max_assign_dist_cells); the source reads the tracking
config but its assignment stub never consults the gating distance. -/
structure TrackerConfig where
  track_timeout_seconds : ℚ
  min_stance_frames : ℕ
  max_assign_dist_cells : ℚ
  cell_m : ℚ
  deriving DecidableEq

/-- GaitFeatureExtractor mutable state: the insertion-ordered track
dict and the id counter. -/
structure ExtractorState where
  tracks : List TrackState
  next_id : ℕ
  deriving DecidableEq

/-- Python int(): truncation toward zero. -/
def pyInt (q : ℚ) : ℤ := q.num / (q.den : ℤ)

/-- max(lo, min(hi, x)). -/
def clampQ (lo hi x : ℚ) : ℚ := max lo (min hi x)

/-- _frame_centroids: a single centroid, the mean of the active cell
coordinates, or the empty list for a blank frame. -/
def frameCentroids (f : Frame) : List (ℚ × ℚ) :=
  if countActive f = 0 then []
  else [(((activeCoords f).map (fun c => (c.2 : ℚ))).sum / (countActive f : ℚ),
         ((activeCoords f).map (fun c => (c.1 : ℚ))).sum / (countActive f : ℚ))]

/-- _expire_old_tracks: drop tracks silent for longer than the
configured timeout. -/
def expireOldTracks (cfg : TrackerConfig) (tracks : List TrackState) (t : ℚ) :
    List TrackState :=
  tracks.filter (fun trk => !decide (cfg.track_timeout_seconds < t - trk.last_update_t))

/-- _create_track: append a fresh track holding the centroid. -/
def createTrack (s : ExtractorState) (c : ℚ × ℚ) (t : ℚ) : ExtractorState :=
  ⟨s.tracks ++ [⟨s.next_id, t, t, [c], [t], none, none, 0, 0, [], [], []⟩],
   s.next_id + 1⟩

/-- _assign_to_nearest_track: the single-track stub — take the FIRST
track in the dict (next(iter(...))) and append the centroid to it,
with no distance computation and no gating. -/
def assignToNearestTrack (tracks : List TrackState) (c : ℚ × ℚ) (t : ℚ) :
    List TrackState :=
  match tracks with
  | [] => []
  | trk :: rest =>
    { trk with
        last_update_t := t,
        centroids := trk.centroids ++ [c],
        centroid_times := trk.centroid_times ++ [t] } :: rest

/-- _calculate_real_step_length: average movement over the last 5
centroids, scaled by 3 and clamped to [0.3, 1.2] m. -/
def calcRealStepLength (sq : ℚ → ℚ) (cfg : TrackerConfig) (trk : TrackState) : ℚ :=
  if trk.centroids.length < 2 then 1/2
  else
    let recent := if 5 ≤ trk.centroids.length then
        trk.centroids.drop (trk.centroids.length - 5)
      else trk.centroids
    if recent.length < 2 then 1/2
    else
      let total_dist := ((recent.zip recent.tail).map (fun pr =>
        sq ((pr.2.1 - pr.1.1) ^ 2 + (pr.2.2 - pr.1.2) ^ 2) * cfg.cell_m)).sum
      let avg := total_dist / ((max 1 (recent.length - 1) : ℕ) : ℚ)
      clampQ (3/10) (12/10) (avg * 3)

/-- _calculate_real_step_time: time since the previous step (or since
track start), clamped to [0.4, 1.2] s. -/
def calcRealStepTime (trk : TrackState) (t : ℚ) : ℚ :=
  match trk.steps.getLast? with
  | none => clampQ (2/5) (6/5) (t - trk.start_time)
  | some last => clampQ (2/5) (6/5) (t - last.t_end)

/-- _calculate_real_step_width: lateral separation of the recorded
contacts, clamped to [0.05, 0.25] m; 0.12 m when either is missing. -/
def calcRealStepWidth (cfg : TrackerConfig) (trk : TrackState) : ℚ :=
  match trk.left_contact, trk.right_contact with
  | some lc, some rc => clampQ (1/20) (1/4) (((|lc.1 - rc.1| : ℤ) : ℚ) * cfg.cell_m)
  | _, _ => 12/100

/-- _calculate_real_double_support: stance/step ratio over the last 3
steps, scaled and clamped to [15, 35] %. -/
def calcRealDoubleSupport (trk : TrackState) : ℚ :=
  if trk.steps.length < 2 then 20
  else
    let recent := if 3 ≤ trk.steps.length then trk.steps.drop (trk.steps.length - 3)
      else trk.steps
    let avg_stance := ((recent.map (fun s => s.stance_time_s)).sum) / (recent.length : ℚ)
    let avg_step := ((recent.map (fun s => s.step_time_s)).sum) / (recent.length : ℚ)
    clampQ 15 35 (avg_stance / avg_step * (2/10) * 100)

/-- _update_foot: bump the stance counter, record the contact, and on
reaching min_stance_frames emit a StepFeature (stance/swing split
60/40) and reset the counter. -/
def updateFoot (sq : ℚ → ℚ) (cfg : TrackerConfig) (trk : TrackState)
    (side : Side) (c : ℚ × ℚ) (t : ℚ) : TrackState :=
  match side with
  | Side.left =>
    let trk1 := { trk with
        left_stance_frames := trk.left_stance_frames + 1,
        left_contact := some (pyInt c.1, pyInt c.2) }
    if cfg.min_stance_frames ≤ trk1.left_stance_frames then
      let step_len := calcRealStepLength sq cfg trk1
      let step_time := calcRealStepTime trk1 t
      let step : StepFeature := ⟨t - step_time, t, step_time, step_time * (6/10),
        step_time * (4/10), step_len, step_len * 2,
        calcRealStepWidth cfg trk1, calcRealDoubleSupport trk1⟩
      { trk1 with
          steps := trk1.steps ++ [step],
          step_times := trk1.step_times ++ [step_time],
          step_lens_m := trk1.step_lens_m ++ [step_len],
          left_stance_frames := 0 }
    else trk1
  | Side.right =>
    let trk1 := { trk with
        right_stance_frames := trk.right_stance_frames + 1,
        right_contact := some (pyInt c.1, pyInt c.2) }
    if cfg.min_stance_frames ≤ trk1.right_stance_frames then
      let step_len := calcRealStepLength sq cfg trk1
      let step_time := calcRealStepTime trk1 t
      let step : StepFeature := ⟨t - step_time, t, step_time, step_time * (6/10),
        step_time * (4/10), step_len, step_len * 2,
        calcRealStepWidth cfg trk1, calcRealDoubleSupport trk1⟩
      { trk1 with
          steps := trk1.steps ++ [step],
          step_times := trk1.step_times ++ [step_time],
          step_lens_m := trk1.step_lens_m ++ [step_len],
          right_stance_frames := 0 }
    else trk1

/-- GaitFeatureExtractor.ingest_frame: expire silent tracks, extract
the frame centroid, create a track when none exist or hand the
centroid to the first track otherwise, then run the alternating foot
update over every track.  (The returned ActorFeatures list is a pure
function of the resulting state and is not modelled.) -/
def ingestFrame (sq : ℚ → ℚ) (cfg : TrackerConfig) (s : ExtractorState)
    (f : Frame) (t : ℚ) : ExtractorState :=
  let tracks := expireOldTracks cfg s.tracks t
  match frameCentroids f with
  | [] => { s with tracks := tracks }
  | c :: _ =>
    let s2 : ExtractorState :=
      if tracks.isEmpty then createTrack ⟨tracks, s.next_id⟩ c t
      else ⟨assignToNearestTrack tracks c t, s.next_id⟩
    ⟨s2.tracks.map (fun trk =>
        if trk.step_times.length % 2 = 0 then updateFoot sq cfg trk Side.left c t
        else updateFoot sq cfg trk Side.right c t),
     s2.next_id⟩

/-! ## Replay pipeline (for the idempotence property)

GaitDetector.update and STSDetector.update consume only the frame and
its carried timestamp; process_frame additionally reads time.time() at
entry, so the wall-clock instants of the processing run are a genuine
input of the fall half of the pipeline. -/

/-- Fold process_frame over frames paired with the wall-clock times at
which they happen to be processed, collecting the fall_detected
outputs. -/
def fallRun (P : FallParams) (predict : List Frame → ℚ) :
    FallState → List (Frame × ℚ) → List Bool
  | _, [] => []
  | s, (f, t) :: rest =>
    let r := processFrame P predict s f t false
    r.2.fall_detected :: fallRun P predict r.1 rest

/-- Fold GaitDetector.update over timestamped frames, collecting the
emitted events. -/
def gaitRun : GaitDetector → List (Frame × ℚ) → List (Option GaitEvent)
  | _, [] => []
  | g, (f, ts) :: rest =>
    let r := gaitUpdate g f ts
    r.2 :: gaitRun r.1 rest

/-- Fold STSDetector.update over timestamped frames, collecting the
emitted events. -/
def stsRun (sq : ℚ → ℚ) : STSDetector → List (Frame × ℚ) → List (Option STSEvent)
  | _, [] => []
  | d, (f, ts) :: rest =>
    let r := stsUpdate sq d f ts
    r.2 :: stsRun sq r.1 rest

/-- Per-run derived outputs of the modelled pipeline. -/
structure PipelineOut where
  gait : List (Option GaitEvent)
  sts : List (Option STSEvent)
  loads : List LoadSplit
  cops : List (ℚ × ℚ)
  fall : List Bool
  deriving DecidableEq

/-- One cold-started processing run: inputs are the timestamped frames;
walls are the wall-clock instants at which the fall machine processes
each frame (read via time.time() in the source). -/
def runPipeline (sq : ℚ → ℚ) (P : FallParams) (predict : List Frame → ℚ)
    (inputs : List (Frame × ℚ)) (walls : List ℚ) : PipelineOut :=
  ⟨gaitRun initGait inputs,
   stsRun sq initSTS inputs,
   inputs.map (fun pr => split_load 12 15 pr.1),
   inputs.map (fun pr => calc_cop 12 15 pr.1),
   fallRun P predict coldFallState ((inputs.map Prod.fst).zip walls)⟩

/-! ## Helper lemmas -/

lemma countP_enumFrom_snd (l : List Bool) (n : ℕ) :
    (List.enumFrom n l).countP (fun jb => jb.2) = l.countP id := by
  induction l generalizing n with
  | nil => rfl
  | cons c cs ih =>
    simp only [List.enumFrom_cons, List.countP_cons]
    rw [ih]
    rfl

lemma activeCoords_row_length (row : List Bool) (i n : ℕ) :
    ((List.enumFrom n row).filterMap
        (fun jb => if jb.2 then some (i, jb.1) else none)).length
      = row.countP id := by
  rw [List.length_filterMap_eq_countP]
  rw [List.countP_congr (q := fun jb => jb.2)]
  · exact countP_enumFrom_snd row n
  · intro jb _
    cases h : jb.2 <;> simp [h]

lemma activeCoords_length (f : Frame) :
    (activeCoords f).length = countActive f := by
  unfold activeCoords countActive
  have h : ∀ (l : List (ℕ × List Bool)),
      (l.flatMap (fun ir =>
        ir.2.enum.filterMap (fun jb => if jb.2 then some (ir.1, jb.1) else none))).length
      = (l.map (fun ir => ir.2.countP id)).sum := by
    intro l
    induction l with
    | nil => rfl
    | cons a l ih =>
      simp only [List.flatMap_cons, List.length_append, List.map_cons, List.sum_cons, ih]
      congr 1
      exact activeCoords_row_length a.2 a.1 0
  rw [h f.enum]
  have h2 : f.enum.map (fun ir => ir.2.countP id)
      = f.map (fun row => row.countP id) := by
    have h3 : f.enum.map (fun ir => ir.2.countP id)
        = (f.enum.map Prod.snd).map (fun row => row.countP id) := by
      rw [List.map_map]
      rfl
    rw [h3, List.enum_map_snd]
  rw [h2]

lemma countP_not_split (l : List (ℕ × ℕ)) (p : ℕ × ℕ → Bool) :
    l.countP p + l.countP (fun c => !p c) = l.length := by
  rw [List.length_eq_countP_add_countP p l]
  congr 1
  apply List.countP_congr
  intro x _
  cases h : p x <;> simp [h]

lemma countActiveCols_split (f : Frame) (p : ℕ → Bool) :
    countActiveCols p f + countActiveCols (fun j => !p j) f = countActive f := by
  unfold countActiveCols
  rw [← activeCoords_length f]
  exact countP_not_split (activeCoords f) (fun c => p c.2)

lemma countActiveRows_split (f : Frame) (p : ℕ → Bool) :
    countActiveRows p f + countActiveRows (fun i => !p i) f = countActive f := by
  unfold countActiveRows
  rw [← activeCoords_length f]
  exact countP_not_split (activeCoords f) (fun c => p c.1)

/-! ## Claim theorems -/

/-- C10: for every input frame (including the zero-activation case) the
load split is an exact partition in rational arithmetic:
left_pct + right_pct = 1 and ant_pct + post_pct = 1, because the column
ranges below/at-or-above C//2 and the row ranges below/at-or-above R//2
each cover every cell exactly once. -/
theorem split_load_partition (R C : ℕ) (f : Frame) :
    (split_load R C f).left_pct + (split_load R C f).right_pct = 1 ∧
    (split_load R C f).ant_pct + (split_load R C f).post_pct = 1 := by
  unfold split_load
  by_cases h : countActive f = 0
  · rw [if_pos h]
    constructor <;> norm_num
  · rw [if_neg h]
    have htot : (countActive f : ℚ) ≠ 0 := by
      exact_mod_cast h
    have hcc : countActiveCols (fun j => decide (C / 2 ≤ j)) f
        = countActiveCols (fun j => !decide (j < C / 2)) f := by
      unfold countActiveCols
      apply List.countP_congr
      intro c _
      by_cases hj : C / 2 ≤ c.2 <;> simp [hj]
    have hrr : countActiveRows (fun i => decide (R / 2 ≤ i)) f
        = countActiveRows (fun i => !decide (i < R / 2)) f := by
      unfold countActiveRows
      apply List.countP_congr
      intro c _
      by_cases hi : R / 2 ≤ c.1 <;> simp [hi]
    constructor
    · rw [hcc, div_add_div_same]
      have hc : (countActiveCols (fun j => decide (j < C / 2)) f : ℚ) +
          (countActiveCols (fun j => !decide (j < C / 2)) f : ℚ) = (countActive f : ℚ) := by
        exact_mod_cast countActiveCols_split f (fun j => decide (j < C / 2))
      rw [hc]
      exact div_self htot
    · rw [hrr, div_add_div_same]
      have hr : (countActiveRows (fun i => decide (i < R / 2)) f : ℚ) +
          (countActiveRows (fun i => !decide (i < R / 2)) f : ℚ) = (countActive f : ℚ) := by
        exact_mod_cast countActiveRows_split f (fun i => decide (i < R / 2))
      rw [hr]
      exact div_self htot

/-- C2: for every zero-activation frame, calc_cop returns the
grid-center sentinel (C/2, R/2), split_load returns the even 0.5/0.5
split on both axes, and a non-forced pass through process_frame clears
both the frame ring buffer and the high-probability flag ring buffer
(and resets the in-progress flag and probability). -/
theorem zero_activation_neutral (R C : ℕ) (f : Frame) (P : FallParams)
    (predict : List Frame → ℚ) (s : FallState) (t : ℚ)
    (h : countActive f = 0) :
    calc_cop R C f = ((C : ℚ) / 2, (R : ℚ) / 2) ∧
    split_load R C f = ⟨1/2, 1/2, 1/2, 1/2⟩ ∧
    (processFrame P predict s f t false).1.frame_buffer = [] ∧
    (processFrame P predict s f t false).1.high_prob_frames = [] := by
  refine ⟨?_, ?_, ?_, ?_⟩ <;> simp [calc_cop, split_load, processFrame, h]

/-- Witness for C2 at a concrete all-inactive 2x2 frame. -/
theorem zero_activation_neutral_witness :
    countActive [[false, false], [false, false]] = 0 ∧
    (calc_cop 12 15 [[false, false], [false, false]] = ((15 : ℚ) / 2, (12 : ℚ) / 2) ∧
     split_load 12 15 [[false, false], [false, false]] = ⟨1/2, 1/2, 1/2, 1/2⟩ ∧
     (processFrame defaultFallParams (fun _ => 0) coldFallState
        [[false, false], [false, false]] 0 false).1.frame_buffer = [] ∧
     (processFrame defaultFallParams (fun _ => 0) coldFallState
        [[false, false], [false, false]] 0 false).1.high_prob_frames = []) :=
  ⟨by decide,
   zero_activation_neutral 12 15 [[false, false], [false, false]]
     defaultFallParams (fun _ => 0) coldFallState 0 (by decide)⟩

/-- C4 counterexample: processing a frame with the manual force trigger
from a state whose last-alert timestamp is 3, at wall-clock time 7,
yields state whose last-alert timestamp is 7, not the 3 carried in the
incoming state — the force path overwrites the cooldown timing. -/
theorem force_fall_changes_last_fall_time :
    (processFrame defaultFallParams (fun _ => 0)
        ⟨[], [], 3, 0, false⟩ [[true]] 7 true).1.last_fall_time ≠
      (⟨[], [], 3, 0, false⟩ : FallState).last_fall_time := by
  decide

/-- C4 (amended): the manual force trigger bypasses buffering and goes
straight to an alert (fall_detected, in-progress, probability 0.95)
while leaving both ring buffers untouched and sending no SMS — but it
RECORDS the current wall-clock time as the last-alert timestamp, so it
does reset the cooldown timing consumed by subsequent real-frame
processing. -/
theorem processFrame_force (P : FallParams) (predict : List Frame → ℚ)
    (s : FallState) (frame : Frame) (t : ℚ) :
    processFrame P predict s frame t true =
      (⟨s.frame_buffer, s.high_prob_frames, t, 95/100, true⟩, ⟨true, 0⟩) := by
  unfold processFrame
  simp

/-- C3 counterexample: a device whose 2x2 frame is configured at
offsetX = 1 on a 2x2 unified grid (so offsetX + width = 3 > 2) does
reach per-frame fusion: fuse_basestation_frames runs to completion and
returns the all-zero grid, silently dropping the device's nonzero
frame — there is no fatal startup error. -/
theorem fuse_oob_silently_dropped :
    fuse_basestation_frames 2 2 [⟨2, 2, 1, 0, some [[1, 1], [1, 1]]⟩] = zeroGrid 2 2 ∧
    ¬((0 : ℕ) + 2 ≤ 2 ∧ (1 : ℕ) + 2 ≤ 2) := by
  constructor
  · decide
  · decide

/-- C3 (amended): a device whose configured rectangle does not fit the
unified grid is skipped at per-frame fusion time (the source logs an
error and moves on): it contributes nothing to the fused output, and
fusion of the remaining devices proceeds as if the device were absent.
No startup validation exists. -/
theorem fuse_oob_skipped (H W : ℕ) (bs : BSConfig) (rest : List BSConfig)
    (h : ¬(bs.offsetY + bs.height ≤ H ∧ bs.offsetX + bs.width ≤ W)) :
    fuse_basestation_frames H W (bs :: rest) = fuse_basestation_frames H W rest := by
  unfold fuse_basestation_frames
  rw [List.foldl_cons]
  congr 1
  unfold blit
  cases hf : bs.frame with
  | none => rfl
  | some f =>
    by_cases hs : shapeOk f bs.height bs.width = true
    · simp [hs, h]
    · simp [hs]

/-- Witness for the amended C3 at a concrete out-of-bounds device. -/
theorem fuse_oob_skipped_witness :
    fuse_basestation_frames 2 2 [(⟨2, 2, 1, 0, some [[1, 1], [1, 1]]⟩ : BSConfig), ⟨1, 1, 0, 0, some [[7]]⟩]
      = fuse_basestation_frames 2 2 [⟨1, 1, 0, 0, some [[7]]⟩] :=
  fuse_oob_skipped 2 2 ⟨2, 2, 1, 0, some [[1, 1], [1, 1]]⟩ [⟨1, 1, 0, 0, some [[7]]⟩]
    (by decide)

/-- C9 counterexample: two cold-started runs over the SAME timestamped
frame sequence (one active frame at timestamp 0, classifier constantly
1, sequence length 1, one consecutive flag, cooldown 10 s) produce
different fall outputs when the wall-clock instants read by
process_frame differ (5 vs 100): at wall time 5 the cooldown since the
initial last_fall_time = 0 has not elapsed and no alert fires, at wall
time 100 it fires.  Derived fall metrics therefore depend on the wall
clock read during processing, not only on the frames and the
timestamps they carry. -/
theorem pipeline_wall_clock_dependence :
    (runPipeline id ⟨1, 1, 4/5, 10⟩ (fun _ => 1)
        [(([[true]] : Frame), (0 : ℚ))] [(5 : ℚ)]).fall ≠
      (runPipeline id ⟨1, 1, 4/5, 10⟩ (fun _ => 1)
        [(([[true]] : Frame), (0 : ℚ))] [(100 : ℚ)]).fall := by
  norm_num [runPipeline, fallRun, processFrame, pushBounded, coldFallState, countActive]

/-- C9 (amended): the gait events, STS events and per-frame load/CoP
outputs of a cold-started run are functions of the timestamped frames
alone: they are identical across two runs whose wall-clock processing
instants differ arbitrarily.  (Only the fall half of the pipeline reads
the wall clock; see the counterexample.) -/
theorem pipeline_replay_deterministic (sq : ℚ → ℚ) (P : FallParams)
    (predict : List Frame → ℚ) (inputs : List (Frame × ℚ)) (walls walls2 : List ℚ) :
    (runPipeline sq P predict inputs walls).gait
      = (runPipeline sq P predict inputs walls2).gait ∧
    (runPipeline sq P predict inputs walls).sts
      = (runPipeline sq P predict inputs walls2).sts ∧
    (runPipeline sq P predict inputs walls).loads
      = (runPipeline sq P predict inputs walls2).loads ∧
    (runPipeline sq P predict inputs walls).cops
      = (runPipeline sq P predict inputs walls2).cops :=
  ⟨rfl, rfl, rfl, rfl⟩

lemma pushBounded_length {α : Type} (n : ℕ) (l : List α) (x : α) :
    (pushBounded n l x).length = min n (l.length + 1) := by
  unfold pushBounded
  by_cases h : n < (l ++ [x]).length
  · rw [if_pos h]
    simp only [List.length_drop, List.length_append, List.length_singleton] at h ⊢
    omega
  · rw [if_neg h]
    simp only [List.length_append, List.length_singleton] at h ⊢
    omega

/-- C1 counterexample: with the default parameters (cooldown 10 s), a
state whose flag buffer needs one more true flag and whose last alert
was at time 0 is processed at wall time exactly 10: the elapsed time
equals — does not EXCEED — the cooldown, yet the SMS notification fires
(the source compares with >=, not >). -/
theorem fall_alert_at_exact_cooldown :
    (processFrame defaultFallParams (fun _ => 1)
        ⟨List.replicate 9 [[true]], [true, true], 0, 0, false⟩
        [[true]] 10 false).2.sms_alerts = 1 ∧
    ¬((10 : ℚ) - (0 : ℚ) > defaultFallParams.cooldown_period) := by
  constructor
  · norm_num [processFrame, pushBounded, defaultFallParams, countActive]
  · norm_num [defaultFallParams]

/-- C1 (amended): for every non-forced frame, the SMS notification
side effect fires exactly once on precisely the alert transition —
nonzero activation, not holding a previous alert inside its cooldown,
frame buffer full, the flag buffer of the last K thresholded
probabilities full and all true, and elapsed time since the last alert
at least (>=, the source's comparison) the cooldown period; the
transition records the current time as the last-alert timestamp and
reports a detected fall.  On every frame where the condition fails, no
SMS is emitted. -/
theorem processFrame_alert_iff (P : FallParams) (predict : List Frame → ℚ)
    (s : FallState) (frame : Frame) (t : ℚ) :
    ((processFrame P predict s frame t false).2.sms_alerts = 1 ↔
      alertCond P predict s frame t) ∧
    ((processFrame P predict s frame t false).2.sms_alerts = 1 ∨
      (processFrame P predict s frame t false).2.sms_alerts = 0) ∧
    (alertCond P predict s frame t →
      (processFrame P predict s frame t false).1.last_fall_time = t ∧
      (processFrame P predict s frame t false).2.fall_detected = true) := by
  have hfb := pushBounded_length P.sequence_length s.frame_buffer frame
  simp only [processFrame]
  by_cases h0 : countActive frame = 0
  · rw [if_pos ⟨h0, trivial⟩]
    refine ⟨⟨fun h => absurd h (by simp), fun h => absurd h0 h.1⟩,
      Or.inr rfl, fun h => absurd h0 h.1⟩
  · rw [if_neg (by simp [h0])]
    rw [if_neg (by simp)]
    by_cases hm : s.fall_in_progress = true ∧ t - s.last_fall_time < P.cooldown_period
    · rw [if_pos hm]
      refine ⟨⟨fun h => absurd h (by simp), fun h => absurd hm h.2.1⟩,
        Or.inr rfl, fun h => absurd hm h.2.1⟩
    · rw [if_neg hm]
      by_cases hlen :
          (pushBounded P.sequence_length s.frame_buffer frame).length < P.sequence_length
      · rw [if_pos hlen]
        have hne : (pushBounded P.sequence_length s.frame_buffer frame).length
            ≠ P.sequence_length := by omega
        refine ⟨⟨fun h => absurd h (by simp), fun h => absurd h.2.2.1 hne⟩,
          Or.inr rfl, fun h => absurd h.2.2.1 hne⟩
      · rw [if_neg hlen]
        by_cases hc :
            (pushBounded P.consecutive_frames s.high_prob_frames
                (decide (P.fall_threshold ≤
                  predict (pushBounded P.sequence_length s.frame_buffer frame)))).length
              = P.consecutive_frames ∧
            (pushBounded P.consecutive_frames s.high_prob_frames
                (decide (P.fall_threshold ≤
                  predict (pushBounded P.sequence_length s.frame_buffer frame)))).all id = true ∧
            P.cooldown_period ≤ t - s.last_fall_time
        · rw [if_pos hc]
          exact ⟨⟨fun _ => ⟨h0, hm, by omega, hc.1, hc.2.1, hc.2.2⟩, fun _ => rfl⟩,
            Or.inl rfl, fun _ => ⟨rfl, rfl⟩⟩
        · rw [if_neg hc]
          refine ⟨⟨fun h => absurd h (by simp),
            fun h => absurd ⟨h.2.2.2.1, h.2.2.2.2.1, h.2.2.2.2.2⟩ hc⟩,
            Or.inr rfl, fun h => absurd ⟨h.2.2.2.1, h.2.2.2.2.1, h.2.2.2.2.2⟩ hc⟩

/-- Witness for the amended C1: a concrete state one flag short of
alerting, processed past the cooldown, fires the SMS. -/
theorem processFrame_alert_iff_witness :
    (processFrame defaultFallParams (fun _ => 1)
        ⟨List.replicate 9 [[true]], [true, true], 0, 0, false⟩
        [[true]] 11 false).2.sms_alerts = 1 :=
  (processFrame_alert_iff defaultFallParams (fun _ => 1)
      ⟨List.replicate 9 [[true]], [true, true], 0, 0, false⟩
      [[true]] 11).1.mpr
    (by norm_num [alertCond, pushBounded, defaultFallParams, countActive])

lemma toGrid_row_length (R C : ℕ) (bytes : List ℕ) (h : bytes.length = R * C) :
    ∀ row ∈ toGrid R C bytes, row.length = C := by
  intro row hrow
  unfold toGrid at hrow
  rw [List.mem_map] at hrow
  obtain ⟨i, hi, rfl⟩ := hrow
  rw [List.mem_range] at hi
  rw [List.length_map, List.length_take, List.length_drop, h]
  have hmul : (i + 1) * C ≤ R * C := Nat.mul_le_mul_right C hi
  rw [Nat.succ_mul] at hmul
  omega

/-- C7: the parser fails — numpy's reshape ValueError, the failure the
spec labels MalformedFrame — exactly when the decoded byte count
differs from rows*cols; on a payload of exactly rows*cols bytes it
returns the 3x3-median-filtered boolean grid, and that decoded grid
always has exactly the declared (rows, cols) shape, so the
DimensionMismatch clause (wrong shape even after a transpose attempt)
can never fire: MalformedFrame is the only error the parser
produces. -/
theorem parse_frame_spec (R C : ℕ) (bytes : List ℕ) :
    (bytes.length ≠ R * C →
      parse_frame R C bytes = Except.error FrameError.MalformedFrame) ∧
    (bytes.length = R * C →
      parse_frame R C bytes = Except.ok (medianFilter3 R C (toGrid R C bytes)) ∧
      (toGrid R C bytes).length = R ∧
      (∀ row ∈ toGrid R C bytes, row.length = C) ∧
      (medianFilter3 R C (toGrid R C bytes)).length = R ∧
      (∀ row ∈ medianFilter3 R C (toGrid R C bytes), row.length = C)) ∧
    (∀ e, parse_frame R C bytes = Except.error e → e = FrameError.MalformedFrame) := by
  refine ⟨?_, ?_, ?_⟩
  · intro h
    unfold parse_frame
    rw [if_neg h]
  · intro h
    refine ⟨by unfold parse_frame; rw [if_pos h], ?_,
      toGrid_row_length R C bytes h, ?_, ?_⟩
    · unfold toGrid
      rw [List.length_map, List.length_range]
    · unfold medianFilter3
      rw [List.length_map, List.length_range]
    · intro row hrow
      unfold medianFilter3 at hrow
      rw [List.mem_map] at hrow
      obtain ⟨i, _, rfl⟩ := hrow
      rw [List.length_map, List.length_range]
  · intro e he
    unfold parse_frame at he
    by_cases h : bytes.length = R * C
    · rw [if_pos h] at he
      cases he
    · rw [if_neg h] at he
      injection he with h2
      exact h2.symm

/-- Witness for C7: a 4-byte payload parses into a filtered 2x2 grid;
a 3-byte payload for the same dimensions is rejected. -/
theorem parse_frame_spec_witness :
    parse_frame 2 2 [1, 0, 0, 5] = Except.ok (medianFilter3 2 2 (toGrid 2 2 [1, 0, 0, 5])) ∧
    parse_frame 2 2 [1, 0, 0] = Except.error FrameError.MalformedFrame :=
  ⟨((parse_frame_spec 2 2 [1, 0, 0, 5]).2.1 (by decide)).1,
   (parse_frame_spec 2 2 [1, 0, 0]).1 (by decide)⟩

/-- C6: the sit-to-stand machine takes exactly the guarded transitions:
from Sitting it moves (to Lifting) precisely when the chair-zone share
drops below 50% with nonzero activation, emitting nothing; from Lifting
it moves (to Standing) precisely when the share drops below 10%,
emitting a sit_to_stand STSEvent whose duration is the time since
entering Lifting; from Returning it moves (to Sitting) precisely when
the share exceeds 70%, emitting a stand_to_sit STSEvent; and no event
is emitted from Standing or Unknown, nor on any non-transition. -/
theorem stsUpdate_transitions (sq : ℚ → ℚ) (d : STSDetector) (f : Frame) (ts : ℚ) :
    (d.state = STSState.SITTING →
      (((stsUpdate sq d f ts).1.state = STSState.LIFTING ↔
          ((zoneActivity 8 12 5 10 f : ℚ) < (countActive f : ℚ) * (1/2) ∧
            (0 : ℚ) < (countActive f : ℚ))) ∧
        ((stsUpdate sq d f ts).1.state = STSState.LIFTING ∨
          (stsUpdate sq d f ts).1.state = STSState.SITTING) ∧
        (stsUpdate sq d f ts).2 = none)) ∧
    (d.state = STSState.LIFTING →
      (((stsUpdate sq d f ts).1.state = STSState.STANDING ↔
          ((zoneActivity 8 12 5 10 f : ℚ) < (countActive f : ℚ) * (1/10) ∧
            (0 : ℚ) < (countActive f : ℚ))) ∧
        ((stsUpdate sq d f ts).1.state = STSState.STANDING →
          ∃ ev, (stsUpdate sq d f ts).2 = some ev ∧
            ev.event_type = STSEventType.sit_to_stand ∧
            ev.duration = ts - d.state_start_time ∧ ev.timestamp = ts ∧
            (stsUpdate sq d f ts).1.events = d.events ++ [ev]) ∧
        ((stsUpdate sq d f ts).1.state ≠ STSState.STANDING →
          (stsUpdate sq d f ts).1.state = STSState.LIFTING ∧
          (stsUpdate sq d f ts).2 = none))) ∧
    (d.state = STSState.RETURNING →
      (((stsUpdate sq d f ts).1.state = STSState.SITTING ↔
          ((countActive f : ℚ) * (7/10) < (zoneActivity 8 12 5 10 f : ℚ) ∧
            (0 : ℚ) < (countActive f : ℚ))) ∧
        ((stsUpdate sq d f ts).1.state = STSState.SITTING →
          ∃ ev, (stsUpdate sq d f ts).2 = some ev ∧
            ev.event_type = STSEventType.stand_to_sit ∧
            ev.duration = ts - d.state_start_time ∧ ev.timestamp = ts ∧
            (stsUpdate sq d f ts).1.events = d.events ++ [ev]) ∧
        ((stsUpdate sq d f ts).1.state ≠ STSState.SITTING →
          (stsUpdate sq d f ts).1.state = STSState.RETURNING ∧
          (stsUpdate sq d f ts).2 = none))) ∧
    ((d.state = STSState.STANDING ∨ d.state = STSState.UNKNOWN) →
      (stsUpdate sq d f ts).2 = none) := by
  refine ⟨?_, ?_, ?_, ?_⟩
  · intro hst
    simp only [stsUpdate, hst]
    split
    · exact ⟨⟨fun _ => by assumption, fun _ => rfl⟩, Or.inl rfl, rfl⟩
    · refine ⟨⟨fun h => ?_, fun h => absurd h (by assumption)⟩, Or.inr (by simp [hst]), rfl⟩
      simp [hst] at h
  · intro hst
    simp only [stsUpdate, hst]
    split
    · refine ⟨⟨fun _ => by assumption, fun _ => rfl⟩,
        fun _ => ⟨_, rfl, rfl, rfl, rfl, by simp⟩, fun h => absurd rfl h⟩
    · refine ⟨⟨fun h => ?_, fun h => absurd h (by assumption)⟩,
        fun h => ?_, fun _ => ⟨by simp [hst], rfl⟩⟩
      · simp [hst] at h
      · simp [hst] at h
  · intro hst
    simp only [stsUpdate, hst]
    split
    · refine ⟨⟨fun _ => by assumption, fun _ => rfl⟩,
        fun _ => ⟨_, rfl, rfl, rfl, rfl, by simp⟩, fun h => absurd rfl h⟩
    · refine ⟨⟨fun h => ?_, fun h => absurd h (by assumption)⟩,
        fun h => ?_, fun _ => ⟨by simp [hst], rfl⟩⟩
      · simp [hst] at h
      · simp [hst] at h
  · rintro (hst | hst) <;> simp only [stsUpdate, hst]
    · split <;> rfl

/-- Witness for C6: a sitting detector fed a frame whose single active
cell lies outside the chair zone (share 0% < 50%) moves to Lifting. -/
theorem stsUpdate_transitions_witness :
    (stsUpdate id ⟨STSState.SITTING, 0, 0, 0, none, none, []⟩ [[true]] 1).1.state
      = STSState.LIFTING :=
  ((stsUpdate_transitions id ⟨STSState.SITTING, 0, 0, 0, none, none, []⟩ [[true]] 1).1
      rfl).1.mpr
    (by
      have h1 : zoneActivity 8 12 5 10 [[true]] = 0 := rfl
      have h2 : countActive [[true]] = 1 := rfl
      rw [h1, h2]
      norm_num)

lemma detectSteps_run (g : GaitDetector) (pre : List (ℚ × ℚ × ℚ × Frame))
    (pts px py : ℚ) (pf : Frame) (cts cx cy : ℚ) (cf : Frame)
    (hh : g.history = pre ++ [(pts, px, py, pf), (cts, cx, cy, cf)])
    (hpre : 1 ≤ pre.length) :
    detectSteps g =
      if g.stride_px_thresh ≤ cx - px ∧
          (countActive pf : ℚ) * (12/10) < (countActive cf : ℚ) then
        ({ g with
            events := g.events ++ [⟨cts, GaitEventType.heel,
              if cx < 15/2 then Side.left else Side.right, cx, cy,
              strideFromPrev g.events
                (if cx < 15/2 then Side.left else Side.right) cx, cf⟩],
            last_heel_strike := some ⟨cts, GaitEventType.heel,
              if cx < 15/2 then Side.left else Side.right, cx, cy,
              strideFromPrev g.events
                (if cx < 15/2 then Side.left else Side.right) cx, cf⟩ },
         some ⟨cts, GaitEventType.heel,
           if cx < 15/2 then Side.left else Side.right, cx, cy,
           strideFromPrev g.events
             (if cx < 15/2 then Side.left else Side.right) cx, cf⟩)
      else if cx - px ≤ -g.stride_px_thresh ∧
          (countActive cf : ℚ) < (countActive pf : ℚ) * (8/10) then
        ({ g with
            events := g.events ++ [⟨cts, GaitEventType.toe,
              match g.last_heel_strike with
              | some e => if e.side = Side.left then Side.right else Side.left
              | none => Side.left, cx, cy, 0, cf⟩],
            last_toe_off := some ⟨cts, GaitEventType.toe,
              match g.last_heel_strike with
              | some e => if e.side = Side.left then Side.right else Side.left
              | none => Side.left, cx, cy, 0, cf⟩ },
         some ⟨cts, GaitEventType.toe,
           match g.last_heel_strike with
           | some e => if e.side = Side.left then Side.right else Side.left
           | none => Side.left, cx, cy, 0, cf⟩)
      else (g, none) := by
  unfold detectSteps
  rw [hh]
  have hlen : ¬(pre ++ [(pts, px, py, pf), (cts, cx, cy, cf)]).length < 3 := by
    rw [List.length_append]
    simp only [List.length_cons, List.length_singleton]
    omega
  rw [if_neg hlen]
  have hrev : (pre ++ [(pts, px, py, pf), (cts, cx, cy, cf)]).reverse
      = (cts, cx, cy, cf) :: (pts, px, py, pf) :: pre.reverse := by
    simp
  rw [hrev]

/-- C5 counterexample: a CoP history of three samples where the newest
sample has Δx = 3 = the configured pixel threshold and the activation
rises by exactly 20% (5 active cells to 6): the claim's conditions
(Δx ≥ threshold AND rise ≥ 20%) both hold, yet the detector signals
nothing, because the source requires a strict rise (sum > prev * 1.2). -/
theorem heel_strike_boundary_not_signaled :
    (detectSteps ⟨3, 90, [((0 : ℚ), (0 : ℚ), (0 : ℚ), ([[true]] : Frame)),
        (1, 0, 0, [[true, true, true, true, true]]),
        (2, 3, 0, [[true, true, true, true, true, true]])], [], none, none⟩).2 = none ∧
    (3 : ℚ) ≤ (3 : ℚ) - 0 ∧
    (countActive [[true, true, true, true, true]] : ℚ) * (12/10) ≤
      (countActive [[true, true, true, true, true, true]] : ℚ) := by
  refine ⟨?_, by norm_num, ?_⟩
  · have h := detectSteps_run
      ⟨3, 90, [((0 : ℚ), (0 : ℚ), (0 : ℚ), ([[true]] : Frame)),
        (1, 0, 0, [[true, true, true, true, true]]),
        (2, 3, 0, [[true, true, true, true, true, true]])], [], none, none⟩
      [((0 : ℚ), (0 : ℚ), (0 : ℚ), ([[true]] : Frame))]
      1 0 0 [[true, true, true, true, true]]
      2 3 0 [[true, true, true, true, true, true]]
      rfl (by norm_num)
    rw [h]
    have hc1 : countActive [[true, true, true, true, true]] = 5 := rfl
    have hc2 : countActive [[true, true, true, true, true, true]] = 6 := rfl
    rw [hc1, hc2]
    norm_num
  · have hc1 : countActive [[true, true, true, true, true]] = 5 := rfl
    have hc2 : countActive [[true, true, true, true, true, true]] = 6 := rfl
    rw [hc1, hc2]
    norm_num

/-- C5 (amended): on a history of at least three samples, a heel-strike
is signaled exactly when Δx ≥ threshold AND the activation rises
STRICTLY above 1.2x the previous frame (the source uses >, so an exact
20% rise does not fire); a toe-off exactly when Δx ≤ −threshold AND the
activation falls strictly below 0.8x; an emitted heel event carries the
newest timestamp and side left/right by CoP x against the midline 7.5,
an emitted toe event carries the side opposite the last heel strike
(left when none was recorded), and each emitted event is appended to
the event log. -/
theorem detectSteps_iff (g : GaitDetector) (pre : List (ℚ × ℚ × ℚ × Frame))
    (pts px py : ℚ) (pf : Frame) (cts cx cy : ℚ) (cf : Frame)
    (hh : g.history = pre ++ [(pts, px, py, pf), (cts, cx, cy, cf)])
    (hpre : 1 ≤ pre.length) :
    ((∃ e, (detectSteps g).2 = some e ∧ e.type = GaitEventType.heel) ↔
      (g.stride_px_thresh ≤ cx - px ∧
        (countActive pf : ℚ) * (12/10) < (countActive cf : ℚ))) ∧
    ((∃ e, (detectSteps g).2 = some e ∧ e.type = GaitEventType.toe) ↔
      (cx - px ≤ -g.stride_px_thresh ∧
        (countActive cf : ℚ) < (countActive pf : ℚ) * (8/10))) ∧
    (∀ e, (detectSteps g).2 = some e →
      e.ts = cts ∧
      (detectSteps g).1.events = g.events ++ [e] ∧
      (e.type = GaitEventType.heel →
        e.side = if cx < 15/2 then Side.left else Side.right) ∧
      (e.type = GaitEventType.toe →
        e.side = match g.last_heel_strike with
          | some e2 => if e2.side = Side.left then Side.right else Side.left
          | none => Side.left)) := by
  rw [detectSteps_run g pre pts px py pf cts cx cy cf hh hpre]
  have hx : ¬((g.stride_px_thresh ≤ cx - px ∧
      (countActive pf : ℚ) * (12/10) < (countActive cf : ℚ)) ∧
      (cx - px ≤ -g.stride_px_thresh ∧
        (countActive cf : ℚ) < (countActive pf : ℚ) * (8/10))) := by
    rintro ⟨⟨-, h1⟩, ⟨-, h2⟩⟩
    have hnn : (0 : ℚ) ≤ (countActive pf : ℚ) := Nat.cast_nonneg _
    nlinarith
  by_cases hheel : g.stride_px_thresh ≤ cx - px ∧
      (countActive pf : ℚ) * (12/10) < (countActive cf : ℚ)
  · rw [if_pos hheel]
    refine ⟨⟨fun _ => hheel, fun _ => ⟨_, rfl, rfl⟩⟩,
      ⟨fun h => ?_, fun h => absurd ⟨hheel, h⟩ hx⟩, fun e he => ?_⟩
    · obtain ⟨e, he, ht⟩ := h
      rw [Option.some_inj] at he
      rw [← he] at ht
      exact nomatch ht
    · rw [Option.some_inj] at he
      subst he
      refine ⟨rfl, rfl, fun _ => rfl, fun ht => nomatch ht⟩
  · rw [if_neg hheel]
    by_cases htoe : cx - px ≤ -g.stride_px_thresh ∧
        (countActive cf : ℚ) < (countActive pf : ℚ) * (8/10)
    · rw [if_pos htoe]
      refine ⟨⟨fun h => ?_, fun h => absurd h hheel⟩,
        ⟨fun _ => htoe, fun _ => ⟨_, rfl, rfl⟩⟩, fun e he => ?_⟩
      · obtain ⟨e, he, ht⟩ := h
        rw [Option.some_inj] at he
        rw [← he] at ht
        exact nomatch ht
      · rw [Option.some_inj] at he
        subst he
        refine ⟨rfl, rfl, ?_, fun _ => rfl⟩
        exact fun ht => nomatch ht
    · rw [if_neg htoe]
      refine ⟨⟨fun h => ?_, fun h => absurd h hheel⟩,
        ⟨fun h => ?_, fun h => absurd h htoe⟩, fun e he => by cases he⟩
      · obtain ⟨e, he, -⟩ := h
        cases he
      · obtain ⟨e, he, -⟩ := h
        cases he

/-- Witness for the amended C5: a strict 100% activation rise with
Δx = 3 fires a heel strike on the newest sample. -/
theorem detectSteps_iff_witness :
    ∃ e, (detectSteps ⟨3, 90, [((0 : ℚ), (0 : ℚ), (0 : ℚ), ([[true]] : Frame)),
        (1, 0, 0, [[true, true, true]]),
        (2, 3, 0, [[true, true, true, true, true, true]])], [], none, none⟩).2 = some e ∧
      e.type = GaitEventType.heel :=
  (detectSteps_iff ⟨3, 90, [((0 : ℚ), (0 : ℚ), (0 : ℚ), ([[true]] : Frame)),
      (1, 0, 0, [[true, true, true]]),
      (2, 3, 0, [[true, true, true, true, true, true]])], [], none, none⟩
    [((0 : ℚ), (0 : ℚ), (0 : ℚ), ([[true]] : Frame))]
    1 0 0 [[true, true, true]] 2 3 0 [[true, true, true, true, true, true]]
    rfl (by norm_num)).1.mpr
    (by
      have hc1 : countActive [[true, true, true]] = 3 := rfl
      have hc2 : countActive [[true, true, true, true, true, true]] = 6 := rfl
      rw [hc1, hc2]
      norm_num)

lemma updateFoot_preserves (sq : ℚ → ℚ) (cfg : TrackerConfig) (trk : TrackState)
    (side : Side) (c : ℚ × ℚ) (t : ℚ) :
    (updateFoot sq cfg trk side c t).centroids = trk.centroids ∧
    (updateFoot sq cfg trk side c t).track_id = trk.track_id := by
  cases side <;> simp only [updateFoot] <;> split <;> exact ⟨rfl, rfl⟩

/-- C8 counterexample: with a configured gating distance of 1 cell, a
frame centroid at (5, 0) — squared distance 25 > 1 from the only live
track, which sits at (0, 0) — is nevertheless merged into that track:
the track count stays 1, the id counter does not move, and the far
centroid is appended to the existing track's history.  The assignment
stub never computes a distance, so gating never causes a new track. -/
theorem tracker_far_centroid_merged :
    (ingestFrame id ⟨5, 3, 1, 1⟩
        ⟨[⟨1, 10, 0, [((0 : ℚ), (0 : ℚ))], [(0 : ℚ)], none, none, 0, 0, [], [], []⟩], 2⟩
        [[false, false, false, false, false, true]] 10).tracks.length = 1 ∧
    (ingestFrame id ⟨5, 3, 1, 1⟩
        ⟨[⟨1, 10, 0, [((0 : ℚ), (0 : ℚ))], [(0 : ℚ)], none, none, 0, 0, [], [], []⟩], 2⟩
        [[false, false, false, false, false, true]] 10).next_id = 2 ∧
    ((ingestFrame id ⟨5, 3, 1, 1⟩
        ⟨[⟨1, 10, 0, [((0 : ℚ), (0 : ℚ))], [(0 : ℚ)], none, none, 0, 0, [], [], []⟩], 2⟩
        [[false, false, false, false, false, true]] 10).tracks.map
      (fun trk => trk.centroids)) = [[((0 : ℚ), (0 : ℚ)), (5, 0)]] ∧
    frameCentroids [[false, false, false, false, false, true]] = [((5 : ℚ), (0 : ℚ))] ∧
    ((5 : ℚ) - 0) ^ 2 + ((0 : ℚ) - 0) ^ 2 >
      (⟨5, 3, 1, 1⟩ : TrackerConfig).max_assign_dist_cells ^ 2 := by
  have hcent : frameCentroids [[false, false, false, false, false, true]]
      = [((5 : ℚ), (0 : ℚ))] := by
    have h1 : countActive [[false, false, false, false, false, true]] = 1 := rfl
    have h2 : activeCoords [[false, false, false, false, false, true]] = [(0, 5)] := rfl
    simp [frameCentroids, h1, h2]
  refine ⟨?_, ?_, ?_, hcent, by norm_num⟩
  · norm_num [ingestFrame, expireOldTracks, hcent, assignToNearestTrack, updateFoot]
  · norm_num [ingestFrame, expireOldTracks, hcent, assignToNearestTrack, updateFoot]
  · norm_num [ingestFrame, expireOldTracks, hcent, assignToNearestTrack, updateFoot]

/-- C8 (amended): after expiring silent tracks, an extracted frame
centroid is handed to the FIRST live track unconditionally — no
distance is computed, no gating applied, and no new track is started
while any track is alive (the single-track assignment stub); a new
track (taking the next id) is created only when no live tracks
remain. -/
theorem ingestFrame_assignment (sq : ℚ → ℚ) (cfg : TrackerConfig) (s : ExtractorState)
    (f : Frame) (t : ℚ) (c : ℚ × ℚ) (cs : List (ℚ × ℚ))
    (hc : frameCentroids f = c :: cs) :
    (expireOldTracks cfg s.tracks t = [] →
      (ingestFrame sq cfg s f t).next_id = s.next_id + 1 ∧
      ((ingestFrame sq cfg s f t).tracks.map (fun trk => trk.track_id)) = [s.next_id]) ∧
    (∀ trk0 rest0, expireOldTracks cfg s.tracks t = trk0 :: rest0 →
      (ingestFrame sq cfg s f t).next_id = s.next_id ∧
      (ingestFrame sq cfg s f t).tracks.length = rest0.length + 1 ∧
      ∃ trk1, (ingestFrame sq cfg s f t).tracks.head? = some trk1 ∧
        trk1.track_id = trk0.track_id ∧
        trk1.centroids = trk0.centroids ++ [c]) := by
  constructor
  · intro hemp
    simp only [ingestFrame, hc, hemp]
    simp only [List.isEmpty_nil, if_true, createTrack, List.nil_append,
      List.map_cons, List.map_nil]
    refine ⟨by trivial, ?_⟩
    simp only [List.cons.injEq, and_true]
    split <;> exact (updateFoot_preserves sq cfg _ _ c t).2
  · intro trk0 rest0 heq
    simp only [ingestFrame, hc, heq]
    simp only [List.isEmpty_cons, Bool.false_eq_true, if_false, assignToNearestTrack,
      List.map_cons]
    refine ⟨by trivial, by simp, ?_⟩
    split
    · exact ⟨_, rfl, (updateFoot_preserves sq cfg _ _ c t).2,
        (updateFoot_preserves sq cfg _ _ c t).1⟩
    · exact ⟨_, rfl, (updateFoot_preserves sq cfg _ _ c t).2,
        (updateFoot_preserves sq cfg _ _ c t).1⟩

/-- Witness for the amended C8: from an empty tracker, the first frame
centroid creates the track carrying the next id. -/
theorem ingestFrame_assignment_witness :
    (ingestFrame id ⟨5, 3, 1, 1⟩ ⟨[], 7⟩ [[true]] 0).next_id = 8 ∧
    ((ingestFrame id ⟨5, 3, 1, 1⟩ ⟨[], 7⟩ [[true]] 0).tracks.map
      (fun trk => trk.track_id)) = [7] :=
  (ingestFrame_assignment id ⟨5, 3, 1, 1⟩ ⟨[], 7⟩ [[true]] 0 ((0 : ℚ), (0 : ℚ)) []
    (by
      have h1 : countActive [[true]] = 1 := rfl
      have h2 : activeCoords [[true]] = [(0, 0)] := rfl
      simp [frameCentroids, h1, h2])).1 rfl

end SpatialEEG
